import Mathlib

/-!
Verification of the vector-research surveillance pipeline
(`src/pipeline/modules/data_processing.py` and
`src/pipeline/modules/metrics_calculator.py`) against its specification.

Tabular data is shallowly embedded: a DataFrame is a `List` of row
structures; a nullable cell is an `Option`; the pandas `NaN` marker is
`Option.none`; numeric cells are `ℚ`.  The permissive parsers
`pd.to_datetime(_, errors='coerce')` and `pd.to_numeric(_, errors='coerce')`
applied to string cells are external library behaviour and are modelled as
arbitrary total functions `String → Option _` (unparseable input yields
`none`), passed as parameters so every theorem holds for any such parser.
-/

namespace VectorPipeline

/-! ### Python string primitives

`str.lower`, `str.strip` and the substring test `needle in hay` are modelled
on the underlying character lists. -/

/-- The characters stripped by Python's `str.strip()`. -/
def pyWs (c : Char) : Bool :=
  c = ' ' || c = '\t' || c = '\n' || c = '\r' || c = '\x0b' || c = '\x0c'

/-- Characters of a string with surrounding whitespace removed. -/
def stripChars (l : List Char) : List Char :=
  ((l.dropWhile pyWs).reverse.dropWhile pyWs).reverse

/-- Python `str.strip()`. -/
def pyStrip (s : String) : String := ⟨stripChars s.data⟩

/-- Python `str.lower()`. -/
def pyLower (s : String) : String := ⟨s.data.map Char.toLower⟩

/-- Bool test: `n` occurs as a contiguous run inside `h`
(Python `n in h` on strings). -/
def hasSub (n : List Char) : List Char → Bool
  | [] => n.isEmpty
  | c :: t => n.isPrefixOf (c :: t) || hasSub n t

/-- Python `needle in hay` for strings. -/
def strContains (hay needle : String) : Bool := hasSub needle.data hay.data

/-! ### Helper lemmas about `dropWhile`, used for idempotence of `pyStrip` -/

theorem dropWhile_self {α : Type} (p : α → Bool) (l : List α) :
    (l.dropWhile p).dropWhile p = l.dropWhile p := by
  induction l with
  | nil => rfl
  | cons a t ih =>
    by_cases h : p a
    · simp [List.dropWhile_cons, h, ih]
    · simp [List.dropWhile_cons, h]

theorem length_dropWhile_le {α : Type} (p : α → Bool) (l : List α) :
    (l.dropWhile p).length ≤ l.length := by
  induction l with
  | nil => simp
  | cons a t ih =>
    by_cases h : p a
    · simp only [List.dropWhile_cons, h, if_true]
      exact Nat.le_succ_of_le ih
    · simp [List.dropWhile_cons, h]

/-- If dropping leading `p`-elements of `x ++ t` changes nothing, the same
holds for the left part `x` on its own. -/
theorem dropWhile_left_of_append {α : Type} (p : α → Bool) (x t : List α)
    (h : (x ++ t).dropWhile p = x ++ t) : x.dropWhile p = x := by
  cases x with
  | nil => rfl
  | cons c cs =>
    by_cases hc : p c
    · exfalso
      rw [List.cons_append, List.dropWhile_cons, if_pos hc] at h
      have hlen : ((cs ++ t).dropWhile p).length ≤ (cs ++ t).length :=
        length_dropWhile_le p (cs ++ t)
      rw [h] at hlen
      simp at hlen
    · simp [List.dropWhile_cons, hc]

theorem stripChars_idem (l : List Char) : stripChars (stripChars l) = stripChars l := by
  unfold stripChars
  set a := l.dropWhile pyWs with ha
  set b := a.reverse.dropWhile pyWs with hb
  have haa : a.dropWhile pyWs = a := dropWhile_self pyWs l
  have hbb : b.dropWhile pyWs = b := by
    rw [hb]; exact dropWhile_self pyWs a.reverse
  -- `a` decomposes as `b.reverse ++ (takeWhile pyWs a.reverse).reverse`
  have hdec : a = b.reverse ++ (a.reverse.takeWhile pyWs).reverse := by
    have h1 : a.reverse.takeWhile pyWs ++ b = a.reverse := by
      rw [hb]; exact List.takeWhile_append_dropWhile pyWs a.reverse
    calc a = a.reverse.reverse := (List.reverse_reverse a).symm
    _ = (a.reverse.takeWhile pyWs ++ b).reverse := by rw [h1]
    _ = b.reverse ++ (a.reverse.takeWhile pyWs).reverse := by
        rw [List.reverse_append]
  have hbr : b.reverse.dropWhile pyWs = b.reverse := by
    apply dropWhile_left_of_append pyWs b.reverse ((a.reverse.takeWhile pyWs).reverse)
    rw [← hdec]; exact haa
  rw [hbr, List.reverse_reverse, hbb]

theorem pyStrip_idem (s : String) : pyStrip (pyStrip s) = pyStrip s :=
  congrArg String.mk (stripChars_idem s.data)

/-! ### Species Normalizer (`clean_specimens_data`, lines 114-168)

The code on the `Species` column: `astype(str).str.strip()`, then
`.replace(species_mapping)` (full-cell exact matches), then cells in
`['', 'nan', 'None', 'null']` become `'Unknown'`. -/

/-- The `species_mapping` dict of `clean_specimens_data`, verbatim. -/
def species_mapping : List (String × String) := [
  ("non-mosquito", "Non-Mosquito"),
  ("non mosquito", "Non-Mosquito"),
  ("Non mosquito", "Non-Mosquito"),
  ("non-Mosquito", "Non-Mosquito"),
  ("NON-MOSQUITO", "Non-Mosquito"),
  ("NON MOSQUITO", "Non-Mosquito"),
  ("unknown", "Unknown"),
  ("Unknown ", "Unknown"),
  (" Unknown", "Unknown"),
  ("UNKNOWN", "Unknown"),
  ("anopheles gambiae", "Anopheles gambiae"),
  ("Anopheles Gambiae", "Anopheles gambiae"),
  ("ANOPHELES GAMBIAE", "Anopheles gambiae"),
  ("anopheles funestus", "Anopheles funestus"),
  ("Anopheles Funestus", "Anopheles funestus"),
  ("ANOPHELES FUNESTUS", "Anopheles funestus"),
  ("anopheles other", "Anopheles other"),
  ("Anopheles Other", "Anopheles other"),
  ("ANOPHELES OTHER", "Anopheles other"),
  ("culex", "Culex"),
  ("CULEX", "Culex"),
  ("Culex ", "Culex"),
  ("mansonia", "Mansonia"),
  ("MANSONIA", "Mansonia"),
  ("Mansonia ", "Mansonia"),
  ("aedes", "Aedes"),
  ("AEDES", "Aedes"),
  ("Aedes ", "Aedes")]

/-- Embeds `Series.replace(species_mapping)`: exact full-cell match, else unchanged. -/
def applyMapping (s : String) : String := (species_mapping.lookup s).getD s

/-- The empty-equivalent cell values replaced by `'Unknown'`. -/
def emptyEquivalents : List String := ["", "nan", "None", "null"]

/-- The species normalization applied to one (string) cell:
strip, exact-match mapping, empty-equivalents to `"Unknown"`. -/
def normalizeSpecies (x : String) : String :=
  let m := applyMapping (pyStrip x)
  if emptyEquivalents.contains m then "Unknown" else m

theorem lookup_mem_values {l : List (String × String)} {k v : String}
    (h : l.lookup k = some v) : v ∈ l.map Prod.snd := by
  induction l with
  | nil => simp [List.lookup] at h
  | cons p t ih =>
    rw [List.lookup] at h
    cases hk : k == p.1 with
    | true =>
      rw [hk] at h
      simp only [Option.some.injEq] at h
      simp [← h]
    | false =>
      rw [hk] at h
      simp [ih h]

/-- Every value of the mapping table is itself a fixed point of the
normalizer's three stages. -/
theorem mapping_values_fixed :
    ∀ v ∈ species_mapping.map Prod.snd,
      pyStrip v = v ∧ species_mapping.lookup v = none ∧
      emptyEquivalents.contains v = false := by
  decide

theorem normalizeSpecies_fixed_of_canonical {v : String}
    (h1 : pyStrip v = v) (h2 : species_mapping.lookup v = none)
    (h3 : emptyEquivalents.contains v = false) :
    normalizeSpecies v = v := by
  unfold normalizeSpecies applyMapping
  rw [h1, h2]
  simp only [Option.getD_none]
  rw [if_neg]
  simpa using h3

/-- C7 (idempotence of the Species Normalizer, with concrete examples). -/
theorem normalize_idem_aux (x : String) :
    normalizeSpecies (normalizeSpecies x) = normalizeSpecies x := by
  by_cases he : emptyEquivalents.contains (applyMapping (pyStrip x))
  · have hx : normalizeSpecies x = "Unknown" := by
      unfold normalizeSpecies; rw [if_pos he]
    rw [hx]
    decide
  · have hx : normalizeSpecies x = applyMapping (pyStrip x) := by
      unfold normalizeSpecies; rw [if_neg he]
    rw [hx]
    unfold applyMapping
    cases hl : species_mapping.lookup (pyStrip x) with
    | some v =>
      simp only [hl, Option.getD_some]
      have hv := mapping_values_fixed v (lookup_mem_values hl)
      exact normalizeSpecies_fixed_of_canonical hv.1 hv.2.1 hv.2.2
    | none =>
      simp only [hl, Option.getD_none]
      apply normalizeSpecies_fixed_of_canonical
      · exact pyStrip_idem x
      · exact hl
      · unfold applyMapping at he
        rw [hl] at he
        simpa using he

/-- C7: the species normalization of `clean_specimens_data` (coerce to
string, strip, exact-match mapping, empty-equivalents to `"Unknown"`) is
idempotent, and the three concrete examples of the spec hold. -/
theorem species_normalizer_idempotent :
    (∀ x : String, normalizeSpecies (normalizeSpecies x) = normalizeSpecies x) ∧
    normalizeSpecies "ANOPHELES GAMBIAE" = "Anopheles gambiae" ∧
    normalizeSpecies "  " = "Unknown" ∧
    normalizeSpecies "culex " = "Culex" :=
  ⟨normalize_idem_aux, by decide, by decide, by decide⟩

/-! ### Record Cleaner: raw and cleaned tables

A raw cell is `Option CellVal` (`none` is pandas `NaN`); columns that hold
free text are `Option String`.  `astype(str)` renders `NaN` as `"nan"`.
The derived calendar columns (`CollectionYear`/`Month`/`YearMonth`/`Quarter`
and their capture-side twins) are pure per-row decompositions of the parsed
date and are not referenced by any claim; the parsed date itself is kept. -/

inductive CellVal
  | str (s : String)
  | num (q : ℚ)

/-- A nullable numeric-or-text cell. -/
def Cell := Option CellVal

/-- Embeds `pd.to_numeric(_, errors='coerce')` on one cell: numbers pass through,
strings go through the (arbitrary) parser, `NaN` stays `NaN`. -/
def to_numeric (pnum : String → Option ℚ) : Cell → Option ℚ
  | Option.none => none
  | Option.some (.num q) => some q
  | Option.some (.str s) => pnum s

/-- Embeds `astype(str)` on a nullable text cell (`NaN` prints as `"nan"`). -/
def astypeStr : Option String → String
  | none => "nan"
  | some s => s

/-- Raw surveillance row (`clean_surveillance_data` input). -/
structure SurvRaw where
  SessionID : Cell
  SessionCollectionDate : Option String
  SessionCollectionMethod : Option String
  NumPeopleSleptInHouse : Cell
  MonthsSinceIrs : Cell
  NumLlinsAvailable : Cell
  NumPeopleSleptUnderLlin : Cell
  WasIrsConducted : Option String
  LlinType : Option String
  LlinBrand : Option String
  SiteDistrict : Option String
  ProgramCountry : Option String

/-- Cleaned surveillance row (`clean_surveillance_data` output). -/
structure SurvClean where
  SessionID : Option ℚ
  SessionCollectionDate : Option Int
  SessionCollectionMethod : String
  NumPeopleSleptInHouse : Option ℚ
  MonthsSinceIrs : Option ℚ
  NumLlinsAvailable : Option ℚ
  NumPeopleSleptUnderLlin : Option ℚ
  WasIrsConducted : String
  LlinType : String
  LlinBrand : String
  SiteDistrict : String
  ProgramCountry : String
  LlinUsageRate : ℚ
  DataQualityFlag : String

/-- Pandas `>` between nullable columns: any comparison involving `NaN`
is `False`. -/
def optGt (a b : Option ℚ) : Bool :=
  match a, b with
  | some x, some y => decide (x > y)
  | _, _ => false

/-- Embeds `(NumPeopleSleptUnderLlin / NumPeopleSleptInHouse * 100).fillna(0)`.
A zero denominator yields a non-finite float in pandas; no claim exercises
that cell, and it is conflated with the `NaN → 0` fill here. -/
def llinUsageRate (under inHouse : Option ℚ) : ℚ :=
  match under, inHouse with
  | some u, some p => if p = 0 then 0 else u / p * 100
  | _, _ => 0

/-- The first quality mask: `NumPeopleSleptUnderLlin > NumLlinsAvailable * 2`. -/
def moreNetsMask (pnum : String → Option ℚ) (r : SurvRaw) : Bool :=
  optGt (to_numeric pnum r.NumPeopleSleptUnderLlin)
    ((to_numeric pnum r.NumLlinsAvailable).map (· * 2))

/-- The second quality mask: `NumPeopleSleptInHouse > 50`. -/
def largeHouseholdMask (pnum : String → Option ℚ) (r : SurvRaw) : Bool :=
  optGt (to_numeric pnum r.NumPeopleSleptInHouse) (some 50)

/-- One row of `DataProcessor.clean_surveillance_data` (lines 27-105):
permissive date/numeric coercion, categorical fills, derived usage rate,
then the two sequential quality-flag overrides. -/
def cleanSurvRow (pnum : String → Option ℚ) (pdate : String → Option Int)
    (r : SurvRaw) : SurvClean :=
  let nHouse := to_numeric pnum r.NumPeopleSleptInHouse
  let nUnder := to_numeric pnum r.NumPeopleSleptUnderLlin
  let flag0 := "OK"
  let flag1 := if moreNetsMask pnum r then "Suspicious: More people than nets" else flag0
  let flag2 := if largeHouseholdMask pnum r then "Suspicious: Large household" else flag1
  { SessionID := to_numeric pnum r.SessionID
    SessionCollectionDate := r.SessionCollectionDate.bind pdate
    SessionCollectionMethod := r.SessionCollectionMethod.getD "Unknown"
    NumPeopleSleptInHouse := nHouse
    MonthsSinceIrs := to_numeric pnum r.MonthsSinceIrs
    NumLlinsAvailable := to_numeric pnum r.NumLlinsAvailable
    NumPeopleSleptUnderLlin := nUnder
    WasIrsConducted := r.WasIrsConducted.getD "Unknown"
    LlinType := r.LlinType.getD "Unknown"
    LlinBrand := r.LlinBrand.getD "Unknown"
    SiteDistrict := r.SiteDistrict.getD "Unknown"
    ProgramCountry := r.ProgramCountry.getD "Unknown"
    LlinUsageRate := llinUsageRate nUnder nHouse
    DataQualityFlag := flag2 }

/-- Embeds `DataProcessor.clean_surveillance_data`: all operations are columnwise
and elementwise, so the table map is a row map. -/
def clean_surveillance_data (pnum : String → Option ℚ) (pdate : String → Option Int)
    (df : List SurvRaw) : List SurvClean :=
  df.map (cleanSurvRow pnum pdate)

/-- Raw specimen row (`clean_specimens_data` input). -/
structure SpecRaw where
  SessionID : Cell
  Species : Option String
  Sex : Option String
  AbdomenStatus : Option String
  SessionCollectionMethod : Option String
  SiteDistrict : Option String
  ProgramCountry : Option String
  CapturedAt : Option String

/-- Cleaned specimen row (`clean_specimens_data` output). -/
structure SpecClean where
  SessionID : Option ℚ
  Species : String
  Sex : String
  AbdomenStatus : String
  SessionCollectionMethod : String
  SiteDistrict : String
  ProgramCountry : String
  CapturedAt : Option Int
  SpeciesGroup : String
  IsFed : Bool
  IsUnfed : Bool
  DataQualityFlag : String

/-- Embeds `DataProcessor._categorize_species` (lines 226-248).  Its input here is
always a post-normalization string, so the `pd.isna` branch collapses into
the `N/A`/`Unknown` test. -/
def categorize_species (species : String) : String :=
  if species = "N/A" || species = "Unknown" then "Unknown"
  else
    let s := pyLower species
    if strContains s "gambiae" then "Anopheles gambiae complex"
    else if strContains s "funestus" then "Anopheles funestus group"
    else if strContains s "arabiensis" then "Anopheles arabiensis"
    else if strContains s "anopheles" then "Other Anopheles"
    else if strContains s "culex" then "Culex (nuisance)"
    else if strContains s "aedes" then "Aedes (arbovirus vector)"
    else if strContains s "non-mosquito" || strContains s "non mosquito" then "Non-mosquito"
    else "Other"

/-- One row of `DataProcessor.clean_specimens_data` (lines 107-224). -/
def cleanSpecRow (pnum : String → Option ℚ) (pdate : String → Option Int)
    (r : SpecRaw) : SpecClean :=
  let species := normalizeSpecies (astypeStr r.Species)
  let sex := r.Sex.getD "Unknown"
  let abdomen := r.AbdomenStatus.getD "Unknown"
  let flag :=
    if (species = "N/A" || species = "Unknown") && !(sex = "N/A")
    then "Missing species ID" else "OK"
  { SessionID := to_numeric pnum r.SessionID
    Species := species
    Sex := sex
    AbdomenStatus := abdomen
    SessionCollectionMethod := r.SessionCollectionMethod.getD "Unknown"
    SiteDistrict := r.SiteDistrict.getD "Unknown"
    ProgramCountry := r.ProgramCountry.getD "Unknown"
    CapturedAt := r.CapturedAt.bind pdate
    SpeciesGroup := categorize_species species
    IsFed := abdomen = "Fully Fed" || abdomen = "Half Gravid" || abdomen = "Gravid"
    IsUnfed := abdomen = "Unfed"
    DataQualityFlag := flag }

/-- A raw specimens table.  Pandas column presence is a table-level fact:
the quality-flag mask of `clean_specimens_data` (line 218) reads
`df['Species']` and `df['Sex']` without the `if col in df.columns` guard
every other column access uses, so the absence of either column is
observable as a `KeyError`.  Absence of any guarded column only skips its
step and is modelled by all-null cells in the rows. -/
structure SpecTable where
  hasSpecies : Bool
  hasSex : Bool
  rows : List SpecRaw

/-- An all-null specimen row, used to build concrete failing inputs. -/
def specRawNone : SpecRaw :=
  ⟨none, none, none, none, none, none, none, none⟩

/-- Embeds `DataProcessor.clean_specimens_data` (lines 107-224): every
transformation is a guarded columnwise elementwise map, but the final
quality-flag mask accesses the `Species` and `Sex` columns unguarded — a
table missing either column makes the call raise `KeyError` instead of
returning a cleaned table. -/
def clean_specimens_data (pnum : String → Option ℚ) (pdate : String → Option Int)
    (t : SpecTable) : Except String (List SpecClean) :=
  if t.hasSpecies && t.hasSex then
    Except.ok (t.rows.map (cleanSpecRow pnum pdate))
  else
    Except.error "KeyError"

/-- C3: the surveillance cleaner is total and preserves the row count for
any parsers and any rows, and the specimens cleaner does the same whenever
the `Species` and `Sex` columns are present — but a specimens table missing
either column makes `clean_specimens_data` raise `KeyError` (the unguarded
`df['Species']` / `df['Sex']` of the quality-flag mask), refuting
"returns normally for arbitrary tables including missing columns". -/
theorem cleaning_missing_column_raises :
    (∀ (pnum : String → Option ℚ) (pdate : String → Option Int)
        (surv : List SurvRaw),
      (clean_surveillance_data pnum pdate surv).length = surv.length) ∧
    (∀ (pnum : String → Option ℚ) (pdate : String → Option Int)
        (rows : List SpecRaw),
      clean_specimens_data pnum pdate ⟨true, true, rows⟩
        = Except.ok (rows.map (cleanSpecRow pnum pdate)) ∧
      (rows.map (cleanSpecRow pnum pdate)).length = rows.length) ∧
    clean_specimens_data (fun _ => none) (fun _ => none)
      ⟨false, true, [specRawNone]⟩ = Except.error "KeyError" ∧
    clean_specimens_data (fun _ => none) (fun _ => none)
      ⟨true, false, [specRawNone]⟩ = Except.error "KeyError" := by
  refine ⟨?_, ?_, rfl, rfl⟩
  · intro pnum pdate surv
    simp [clean_surveillance_data]
  · intro pnum pdate rows
    exact ⟨rfl, by simp⟩

/-- An all-null surveillance row, used to build the concrete examples. -/
def survRawNone : SurvRaw :=
  ⟨none, none, none, none, none, none, none, none, none, none, none, none⟩

/-- C6: the quality flag of a cleaned surveillance row is `"OK"` unless a
check matches; the household check (applied second) wins over the nets
check; and the three concrete example rows of the claim are flagged as
stated. -/
theorem surveillance_quality_flag_semantics (pnum : String → Option ℚ)
    (pdate : String → Option Int) (r : SurvRaw) :
    (cleanSurvRow pnum pdate r).DataQualityFlag =
      (if largeHouseholdMask pnum r then "Suspicious: Large household"
       else if moreNetsMask pnum r then "Suspicious: More people than nets"
       else "OK") ∧
    (cleanSurvRow pnum pdate
      { survRawNone with NumPeopleSleptInHouse := some (.num 51) }).DataQualityFlag
      = "Suspicious: Large household" ∧
    (cleanSurvRow pnum pdate
      { survRawNone with NumPeopleSleptUnderLlin := some (.num 10),
                         NumLlinsAvailable := some (.num 2) }).DataQualityFlag
      = "Suspicious: More people than nets" ∧
    (cleanSurvRow pnum pdate
      { survRawNone with NumPeopleSleptUnderLlin := some (.num 10),
                         NumLlinsAvailable := some (.num 2),
                         NumPeopleSleptInHouse := some (.num 51) }).DataQualityFlag
      = "Suspicious: Large household" := by
  refine ⟨rfl, ?_, ?_, ?_⟩ <;>
    simp [cleanSurvRow, moreNetsMask, largeHouseholdMask, optGt, to_numeric,
      survRawNone] <;> norm_num

/-! ### Session Merger (`DataProcessor.merge_data`, lines 250-275)

`specimens.merge(surveillance[session_cols], on='SessionID', how='left')`:
each specimen row is paired with every surveillance row sharing its
`SessionID`; a specimen with no match keeps null session columns. -/

/-- The `session_cols` projection of a surveillance row selected for the
merge. -/
structure SessionCols where
  SessionCollectionMethod : String
  SessionCollectionDate : Option Int
  NumPeopleSleptInHouse : Option ℚ
  SiteDistrict : String
  ProgramCountry : String
  WasIrsConducted : String
  NumLlinsAvailable : Option ℚ
  LlinUsageRate : ℚ

def projSession (r : SurvClean) : SessionCols :=
  ⟨r.SessionCollectionMethod, r.SessionCollectionDate, r.NumPeopleSleptInHouse,
   r.SiteDistrict, r.ProgramCountry, r.WasIrsConducted, r.NumLlinsAvailable,
   r.LlinUsageRate⟩

/-- Merge-key equality (pandas joins match `NaN` keys with each other). -/
def sidEq (a b : Option ℚ) : Bool := decide (a = b)

/-- Embeds `DataProcessor.merge_data`: left join of specimens onto the session
projection, keyed on `SessionID`. -/
def merge_data (surv : List SurvClean) (specs : List SpecClean) :
    List (SpecClean × Option SessionCols) :=
  specs.flatMap (fun s =>
    let ms := surv.filter (fun r => sidEq r.SessionID s.SessionID)
    if ms.isEmpty then [(s, none)]
    else ms.map (fun r => (s, some (projSession r))))

theorem filter_sid_length_le_one (surv : List SurvClean) (k : Option ℚ)
    (h : (surv.map (·.SessionID)).Nodup) :
    (surv.filter (fun r => sidEq r.SessionID k)).length ≤ 1 := by
  induction surv with
  | nil => simp
  | cons r t ih =>
    simp only [List.map_cons, List.nodup_cons] at h
    by_cases hr : sidEq r.SessionID k
    · have hrk : r.SessionID = k := by
        simpa [sidEq] using hr
      have htnil : t.filter (fun x => sidEq x.SessionID k) = [] := by
        apply List.filter_eq_nil_iff.mpr
        intro x hx hxk
        have hxk2 : x.SessionID = k := by simpa [sidEq] using hxk
        exact h.1 (by
          rw [List.mem_map]
          exact ⟨x, hx, by rw [hxk2, hrk]⟩)
      simp [List.filter_cons, hr, htnil]
    · simp only [List.filter_cons, hr, if_false, Bool.false_eq_true, if_neg]
      exact ih h.2

/-- C5: when the surveillance `SessionID`s are unique the left join emits
exactly one row per specimen, and any specimen whose `SessionID` occurs in
no surveillance row keeps `none` in place of the session columns. -/
theorem merge_left_join_guarantee (surv : List SurvClean) (specs : List SpecClean)
    (h : (surv.map (·.SessionID)).Nodup) :
    (merge_data surv specs).length = specs.length ∧
    ∀ p ∈ merge_data surv specs,
      (∀ r ∈ surv, r.SessionID ≠ p.1.SessionID) → p.2 = none := by
  constructor
  · induction specs with
    | nil => rfl
    | cons s t ih =>
      have hone :
          (if (surv.filter (fun r => sidEq r.SessionID s.SessionID)).isEmpty
           then [(s, (none : Option SessionCols))]
           else (surv.filter (fun r => sidEq r.SessionID s.SessionID)).map
             (fun r => (s, some (projSession r)))).length = 1 := by
        by_cases he : (surv.filter (fun r => sidEq r.SessionID s.SessionID)).isEmpty
        · simp [he]
        · have hle := filter_sid_length_le_one surv s.SessionID h
          have hne : (surv.filter (fun r => sidEq r.SessionID s.SessionID)).length ≠ 0 := by
            intro h0
            exact he (List.isEmpty_iff_length_eq_zero.mpr h0)
          rw [if_neg (by simpa using he), List.length_map]
          omega
      have hstep : merge_data surv (s :: t) =
          (if (surv.filter (fun r => sidEq r.SessionID s.SessionID)).isEmpty
           then [(s, (none : Option SessionCols))]
           else (surv.filter (fun r => sidEq r.SessionID s.SessionID)).map
             (fun r => (s, some (projSession r)))) ++ merge_data surv t := rfl
      rw [hstep, List.length_append, hone, ih, List.length_cons]
      omega
  · intro p hp horphan
    simp only [merge_data, List.mem_flatMap] at hp
    obtain ⟨s, hs, hps⟩ := hp
    by_cases he : (surv.filter (fun r => sidEq r.SessionID s.SessionID)).isEmpty
    · simp only [he, if_true, List.mem_singleton] at hps
      rw [hps]
    · simp only [he, if_false, Bool.false_eq_true, if_neg, List.mem_map] at hps
      obtain ⟨r, hr, hpr⟩ := hps
      have hrmem : r ∈ surv := (List.mem_filter.mp hr).1
      have hrk : sidEq r.SessionID s.SessionID := (List.mem_filter.mp hr).2
      have hsid : r.SessionID = s.SessionID := by
        simpa [sidEq] using hrk
      exfalso
      apply horphan r hrmem
      rw [← hpr]
      exact hsid

/-! ### Session Aggregator (`DataProcessor.export_report_format`, lines 312-545)

Only the per-session count columns are modelled; the metadata columns of a
report row are verbatim copies of surveillance cells and are referenced by
no claim.  One `Counts` value is produced per distinct `SessionID` of the
surveillance table, aggregating the specimens whose `SessionID` equals it. -/

/-- The feeding-status suffix `UF` / `F` / `G`. -/
inductive FStatus
  | UF
  | F
  | G

/-- The status classification of lines 386-393: substring tests on the
lowered abdomen status, defaulting to `UF`. -/
def statusOf (abdomen : String) : FStatus :=
  let a := pyLower abdomen
  if strContains a "unfed" then .UF
  else if strContains a "fed" || strContains a "blood" then .F
  else if strContains a "gravid" then .G
  else .UF

/-- The counter vocabulary of the report row (lines 352-375). -/
structure Counts where
  total : Nat
  totalAnopheles : Nat
  totalOtherMosquitoes : Nat
  maleAnopheles : Nat
  anGambiaeUF : Nat
  anGambiaeF : Nat
  anGambiaeG : Nat
  AnGambiaeMale : Nat
  AnGambiaeFemale : Nat
  anFunestusUF : Nat
  anFunestusF : Nat
  anFunestusG : Nat
  AnFunestusMale : Nat
  AnFunestusFemale : Nat
  anOtherUF : Nat
  anOtherF : Nat
  anOtherG : Nat
  AnOtherMale : Nat
  AnOtherFemale : Nat
  CulexUF : Nat
  CulexF : Nat
  CulexG : Nat
  culexMale : Nat
  culexFemale : Nat
  AedesUF : Nat
  AedesF : Nat
  AedesG : Nat
  aedesMale : Nat
  aedesFemale : Nat
  MansoniaUF : Nat
  MansoniaF : Nat
  MansoniaG : Nat
  mansoniaMale : Nat
  mansoniaFemale : Nat

def initCounts : Counts :=
  ⟨0, 0, 0, 0, 0, 0, 0, 0, 0, 0, 0, 0, 0, 0, 0, 0, 0,
   0, 0, 0, 0, 0, 0, 0, 0, 0, 0, 0, 0, 0, 0, 0, 0, 0⟩

/-- The gambiae branch of the per-specimen counting step (lines 398-405). -/
def bumpGambiae (st : FStatus) (sex : String) (c : Counts) : Counts :=
  let c := match st with
    | .UF => { c with anGambiaeUF := c.anGambiaeUF + 1 }
    | .F => { c with anGambiaeF := c.anGambiaeF + 1 }
    | .G => { c with anGambiaeG := c.anGambiaeG + 1 }
  let c :=
    if strContains sex "male" then
      { c with AnGambiaeMale := c.AnGambiaeMale + 1,
               maleAnopheles := c.maleAnopheles + 1 }
    else if strContains sex "female" then
      { c with AnGambiaeFemale := c.AnGambiaeFemale + 1 }
    else c
  { c with totalAnopheles := c.totalAnopheles + 1 }

/-- The funestus branch (lines 407-414). -/
def bumpFunestus (st : FStatus) (sex : String) (c : Counts) : Counts :=
  let c := match st with
    | .UF => { c with anFunestusUF := c.anFunestusUF + 1 }
    | .F => { c with anFunestusF := c.anFunestusF + 1 }
    | .G => { c with anFunestusG := c.anFunestusG + 1 }
  let c :=
    if strContains sex "male" then
      { c with AnFunestusMale := c.AnFunestusMale + 1,
               maleAnopheles := c.maleAnopheles + 1 }
    else if strContains sex "female" then
      { c with AnFunestusFemale := c.AnFunestusFemale + 1 }
    else c
  { c with totalAnopheles := c.totalAnopheles + 1 }

/-- The other-anopheles branch (lines 416-423). -/
def bumpAnOther (st : FStatus) (sex : String) (c : Counts) : Counts :=
  let c := match st with
    | .UF => { c with anOtherUF := c.anOtherUF + 1 }
    | .F => { c with anOtherF := c.anOtherF + 1 }
    | .G => { c with anOtherG := c.anOtherG + 1 }
  let c :=
    if strContains sex "male" then
      { c with AnOtherMale := c.AnOtherMale + 1,
               maleAnopheles := c.maleAnopheles + 1 }
    else if strContains sex "female" then
      { c with AnOtherFemale := c.AnOtherFemale + 1 }
    else c
  { c with totalAnopheles := c.totalAnopheles + 1 }

/-- The culex branch (lines 425-430). -/
def bumpCulex (st : FStatus) (sex : String) (c : Counts) : Counts :=
  let c := match st with
    | .UF => { c with CulexUF := c.CulexUF + 1 }
    | .F => { c with CulexF := c.CulexF + 1 }
    | .G => { c with CulexG := c.CulexG + 1 }
  let c :=
    if strContains sex "male" then { c with culexMale := c.culexMale + 1 }
    else if strContains sex "female" then { c with culexFemale := c.culexFemale + 1 }
    else c
  { c with totalOtherMosquitoes := c.totalOtherMosquitoes + 1 }

/-- The aedes branch (lines 432-437). -/
def bumpAedes (st : FStatus) (sex : String) (c : Counts) : Counts :=
  let c := match st with
    | .UF => { c with AedesUF := c.AedesUF + 1 }
    | .F => { c with AedesF := c.AedesF + 1 }
    | .G => { c with AedesG := c.AedesG + 1 }
  let c :=
    if strContains sex "male" then { c with aedesMale := c.aedesMale + 1 }
    else if strContains sex "female" then { c with aedesFemale := c.aedesFemale + 1 }
    else c
  { c with totalOtherMosquitoes := c.totalOtherMosquitoes + 1 }

/-- The mansonia branch (lines 439-444). -/
def bumpMansonia (st : FStatus) (sex : String) (c : Counts) : Counts :=
  let c := match st with
    | .UF => { c with MansoniaUF := c.MansoniaUF + 1 }
    | .F => { c with MansoniaF := c.MansoniaF + 1 }
    | .G => { c with MansoniaG := c.MansoniaG + 1 }
  let c :=
    if strContains sex "male" then { c with mansoniaMale := c.mansoniaMale + 1 }
    else if strContains sex "female" then { c with mansoniaFemale := c.mansoniaFemale + 1 }
    else c
  { c with totalOtherMosquitoes := c.totalOtherMosquitoes + 1 }

/-- The per-specimen counting step (lines 378-450): total incremented, then
species classified by substring on the lowered species in the fixed order
gambiae / funestus / anopheles / culex / aedes / mansonia; the trailing
`is_anopheles` bookkeeping is folded into each branch.  A specimen matching
no species substring still counts into `totalOtherMosquitoes`. -/
def processSpecimen (c : Counts) (s : SpecClean) : Counts :=
  let c1 := { c with total := c.total + 1 }
  let species := pyLower s.Species
  let sex := pyLower s.Sex
  let st := statusOf s.AbdomenStatus
  if strContains species "gambiae" then bumpGambiae st sex c1
  else if strContains species "funestus" then bumpFunestus st sex c1
  else if strContains species "anopheles" then bumpAnOther st sex c1
  else if strContains species "culex" then bumpCulex st sex c1
  else if strContains species "aedes" then bumpAedes st sex c1
  else if strContains species "mansonia" then bumpMansonia st sex c1
  else { c1 with totalOtherMosquitoes := c1.totalOtherMosquitoes + 1 }

/-- Aggregate all specimens of one session. -/
def buildCounts (specs : List SpecClean) : Counts :=
  specs.foldl processSpecimen initCounts

/-- Embeds `surveillance_df['SessionID'] == session_id` on one specimen row:
`NaN` compares unequal to everything, itself included. -/
def matchSid (sid : Option ℚ) (s : SpecClean) : Bool :=
  match sid, s.SessionID with
  | some k, some k2 => decide (k2 = k)
  | _, _ => false

/-- The count columns of the report: one `Counts` per distinct
surveillance `SessionID` value, over the specimens of that session. -/
def export_report_counts (surv : List SurvClean) (specs : List SpecClean) :
    List Counts :=
  ((surv.map (·.SessionID)).dedup).map
    (fun sid => buildCounts (specs.filter (matchSid sid)))

/-- The eighteen per-species-group feeding-status counters. -/
def sum18 (c : Counts) : Nat :=
  c.anGambiaeUF + c.anGambiaeF + c.anGambiaeG +
  c.anFunestusUF + c.anFunestusF + c.anFunestusG +
  c.anOtherUF + c.anOtherF + c.anOtherG +
  c.CulexUF + c.CulexF + c.CulexG +
  c.AedesUF + c.AedesF + c.AedesG +
  c.MansoniaUF + c.MansoniaF + c.MansoniaG

/-- The three per-Anopheles-group male counters. -/
def sumAnMales (c : Counts) : Nat :=
  c.AnGambiaeMale + c.AnFunestusMale + c.AnOtherMale

/-- A specimen whose lowered species matches one of the six species-group
substrings of the report builder. -/
def classified (s : SpecClean) : Bool :=
  let sp := pyLower s.Species
  strContains sp "gambiae" || strContains sp "funestus" ||
  strContains sp "anopheles" || strContains sp "culex" ||
  strContains sp "aedes" || strContains sp "mansonia"

theorem bumpGambiae_spec (st : FStatus) (sex : String) (c : Counts) :
    (bumpGambiae st sex c).total = c.total ∧
    (bumpGambiae st sex c).totalAnopheles = c.totalAnopheles + 1 ∧
    (bumpGambiae st sex c).totalOtherMosquitoes = c.totalOtherMosquitoes ∧
    sum18 (bumpGambiae st sex c) = sum18 c + 1 ∧
    (bumpGambiae st sex c).maleAnopheles + sumAnMales c
      = c.maleAnopheles + sumAnMales (bumpGambiae st sex c) := by
  cases st <;> simp only [bumpGambiae] <;> split_ifs <;>
    simp [sum18, sumAnMales] <;> omega

theorem bumpFunestus_spec (st : FStatus) (sex : String) (c : Counts) :
    (bumpFunestus st sex c).total = c.total ∧
    (bumpFunestus st sex c).totalAnopheles = c.totalAnopheles + 1 ∧
    (bumpFunestus st sex c).totalOtherMosquitoes = c.totalOtherMosquitoes ∧
    sum18 (bumpFunestus st sex c) = sum18 c + 1 ∧
    (bumpFunestus st sex c).maleAnopheles + sumAnMales c
      = c.maleAnopheles + sumAnMales (bumpFunestus st sex c) := by
  cases st <;> simp only [bumpFunestus] <;> split_ifs <;>
    simp [sum18, sumAnMales] <;> omega

theorem bumpAnOther_spec (st : FStatus) (sex : String) (c : Counts) :
    (bumpAnOther st sex c).total = c.total ∧
    (bumpAnOther st sex c).totalAnopheles = c.totalAnopheles + 1 ∧
    (bumpAnOther st sex c).totalOtherMosquitoes = c.totalOtherMosquitoes ∧
    sum18 (bumpAnOther st sex c) = sum18 c + 1 ∧
    (bumpAnOther st sex c).maleAnopheles + sumAnMales c
      = c.maleAnopheles + sumAnMales (bumpAnOther st sex c) := by
  cases st <;> simp only [bumpAnOther] <;> split_ifs <;>
    simp [sum18, sumAnMales] <;> omega

theorem bumpCulex_spec (st : FStatus) (sex : String) (c : Counts) :
    (bumpCulex st sex c).total = c.total ∧
    (bumpCulex st sex c).totalAnopheles = c.totalAnopheles ∧
    (bumpCulex st sex c).totalOtherMosquitoes = c.totalOtherMosquitoes + 1 ∧
    sum18 (bumpCulex st sex c) = sum18 c + 1 ∧
    (bumpCulex st sex c).maleAnopheles = c.maleAnopheles ∧
    sumAnMales (bumpCulex st sex c) = sumAnMales c := by
  cases st <;> simp only [bumpCulex] <;> split_ifs <;>
    simp [sum18, sumAnMales] <;> omega

theorem bumpAedes_spec (st : FStatus) (sex : String) (c : Counts) :
    (bumpAedes st sex c).total = c.total ∧
    (bumpAedes st sex c).totalAnopheles = c.totalAnopheles ∧
    (bumpAedes st sex c).totalOtherMosquitoes = c.totalOtherMosquitoes + 1 ∧
    sum18 (bumpAedes st sex c) = sum18 c + 1 ∧
    (bumpAedes st sex c).maleAnopheles = c.maleAnopheles ∧
    sumAnMales (bumpAedes st sex c) = sumAnMales c := by
  cases st <;> simp only [bumpAedes] <;> split_ifs <;>
    simp [sum18, sumAnMales] <;> omega

theorem bumpMansonia_spec (st : FStatus) (sex : String) (c : Counts) :
    (bumpMansonia st sex c).total = c.total ∧
    (bumpMansonia st sex c).totalAnopheles = c.totalAnopheles ∧
    (bumpMansonia st sex c).totalOtherMosquitoes = c.totalOtherMosquitoes + 1 ∧
    sum18 (bumpMansonia st sex c) = sum18 c + 1 ∧
    (bumpMansonia st sex c).maleAnopheles = c.maleAnopheles ∧
    sumAnMales (bumpMansonia st sex c) = sumAnMales c := by
  cases st <;> simp only [bumpMansonia] <;> split_ifs <;>
    simp [sum18, sumAnMales] <;> omega

theorem process_total (c : Counts) (s : SpecClean) :
    (processSpecimen c s).total = c.total + 1 := by
  simp only [processSpecimen]
  split_ifs with h1 h2 h3 h4 h5 h6
  · simpa using (bumpGambiae_spec (statusOf s.AbdomenStatus) (pyLower s.Sex)
      { c with total := c.total + 1 }).1
  · simpa using (bumpFunestus_spec (statusOf s.AbdomenStatus) (pyLower s.Sex)
      { c with total := c.total + 1 }).1
  · simpa using (bumpAnOther_spec (statusOf s.AbdomenStatus) (pyLower s.Sex)
      { c with total := c.total + 1 }).1
  · simpa using (bumpCulex_spec (statusOf s.AbdomenStatus) (pyLower s.Sex)
      { c with total := c.total + 1 }).1
  · simpa using (bumpAedes_spec (statusOf s.AbdomenStatus) (pyLower s.Sex)
      { c with total := c.total + 1 }).1
  · simpa using (bumpMansonia_spec (statusOf s.AbdomenStatus) (pyLower s.Sex)
      { c with total := c.total + 1 }).1
  · simp

theorem process_an_other (c : Counts) (s : SpecClean) :
    (processSpecimen c s).totalAnopheles + (processSpecimen c s).totalOtherMosquitoes
      = c.totalAnopheles + c.totalOtherMosquitoes + 1 := by
  simp only [processSpecimen]
  split_ifs with h1 h2 h3 h4 h5 h6
  · obtain ⟨e1, e2, e3, e4, e5⟩ := bumpGambiae_spec (statusOf s.AbdomenStatus)
      (pyLower s.Sex) { c with total := c.total + 1 }
    simp at e2 e3
    omega
  · obtain ⟨e1, e2, e3, e4, e5⟩ := bumpFunestus_spec (statusOf s.AbdomenStatus)
      (pyLower s.Sex) { c with total := c.total + 1 }
    simp at e2 e3
    omega
  · obtain ⟨e1, e2, e3, e4, e5⟩ := bumpAnOther_spec (statusOf s.AbdomenStatus)
      (pyLower s.Sex) { c with total := c.total + 1 }
    simp at e2 e3
    omega
  · obtain ⟨e1, e2, e3, e4, e5, e6⟩ := bumpCulex_spec (statusOf s.AbdomenStatus)
      (pyLower s.Sex) { c with total := c.total + 1 }
    simp at e2 e3
    omega
  · obtain ⟨e1, e2, e3, e4, e5, e6⟩ := bumpAedes_spec (statusOf s.AbdomenStatus)
      (pyLower s.Sex) { c with total := c.total + 1 }
    simp at e2 e3
    omega
  · obtain ⟨e1, e2, e3, e4, e5, e6⟩ := bumpMansonia_spec (statusOf s.AbdomenStatus)
      (pyLower s.Sex) { c with total := c.total + 1 }
    simp at e2 e3
    omega
  · simp
    omega

theorem process_sum18_classified (c : Counts) (s : SpecClean)
    (hcl : classified s = true) :
    sum18 (processSpecimen c s) = sum18 c + 1 := by
  have hini1 : sum18 { c with total := c.total + 1 } = sum18 c := by
    simp [sum18]
  simp only [processSpecimen]
  split_ifs with h1 h2 h3 h4 h5 h6
  · have e4 := (bumpGambiae_spec (statusOf s.AbdomenStatus) (pyLower s.Sex)
      { c with total := c.total + 1 }).2.2.2.1
    omega
  · have e4 := (bumpFunestus_spec (statusOf s.AbdomenStatus) (pyLower s.Sex)
      { c with total := c.total + 1 }).2.2.2.1
    omega
  · have e4 := (bumpAnOther_spec (statusOf s.AbdomenStatus) (pyLower s.Sex)
      { c with total := c.total + 1 }).2.2.2.1
    omega
  · have e4 := (bumpCulex_spec (statusOf s.AbdomenStatus) (pyLower s.Sex)
      { c with total := c.total + 1 }).2.2.2.1
    omega
  · have e4 := (bumpAedes_spec (statusOf s.AbdomenStatus) (pyLower s.Sex)
      { c with total := c.total + 1 }).2.2.2.1
    omega
  · have e4 := (bumpMansonia_spec (statusOf s.AbdomenStatus) (pyLower s.Sex)
      { c with total := c.total + 1 }).2.2.2.1
    omega
  · simp [classified, h1, h2, h3, h4, h5, h6] at hcl

theorem process_sum18_not (c : Counts) (s : SpecClean)
    (hcl : classified s = false) :
    sum18 (processSpecimen c s) = sum18 c := by
  simp only [processSpecimen]
  split_ifs with h1 h2 h3 h4 h5 h6
  · simp [classified, h1] at hcl
  · simp [classified, h2] at hcl
  · simp [classified, h3] at hcl
  · simp [classified, h4] at hcl
  · simp [classified, h5] at hcl
  · simp [classified, h6] at hcl
  · simp [sum18]

theorem process_males (c : Counts) (s : SpecClean) :
    (processSpecimen c s).maleAnopheles + sumAnMales c
      = c.maleAnopheles + sumAnMales (processSpecimen c s) := by
  have hini2 : sumAnMales { c with total := c.total + 1 } = sumAnMales c := by
    simp [sumAnMales]
  simp only [processSpecimen]
  split_ifs with h1 h2 h3 h4 h5 h6
  · obtain ⟨e1, e2, e3, e4, e5⟩ := bumpGambiae_spec (statusOf s.AbdomenStatus)
      (pyLower s.Sex) { c with total := c.total + 1 }
    simp at e5
    omega
  · obtain ⟨e1, e2, e3, e4, e5⟩ := bumpFunestus_spec (statusOf s.AbdomenStatus)
      (pyLower s.Sex) { c with total := c.total + 1 }
    simp at e5
    omega
  · obtain ⟨e1, e2, e3, e4, e5⟩ := bumpAnOther_spec (statusOf s.AbdomenStatus)
      (pyLower s.Sex) { c with total := c.total + 1 }
    simp at e5
    omega
  · obtain ⟨e1, e2, e3, e4, e5, e6⟩ := bumpCulex_spec (statusOf s.AbdomenStatus)
      (pyLower s.Sex) { c with total := c.total + 1 }
    simp at e5
    omega
  · obtain ⟨e1, e2, e3, e4, e5, e6⟩ := bumpAedes_spec (statusOf s.AbdomenStatus)
      (pyLower s.Sex) { c with total := c.total + 1 }
    simp at e5
    omega
  · obtain ⟨e1, e2, e3, e4, e5, e6⟩ := bumpMansonia_spec (statusOf s.AbdomenStatus)
      (pyLower s.Sex) { c with total := c.total + 1 }
    simp at e5
    omega
  · simp [sumAnMales]

theorem foldl_total (l : List SpecClean) (c : Counts) :
    (l.foldl processSpecimen c).total = c.total + l.length := by
  induction l generalizing c with
  | nil => rfl
  | cons s t ih =>
    rw [List.foldl_cons, ih, process_total, List.length_cons]
    omega

theorem foldl_an_other (l : List SpecClean) (c : Counts) :
    (l.foldl processSpecimen c).totalAnopheles
      + (l.foldl processSpecimen c).totalOtherMosquitoes
      = c.totalAnopheles + c.totalOtherMosquitoes + l.length := by
  induction l generalizing c with
  | nil => rfl
  | cons s t ih =>
    rw [List.foldl_cons, ih, process_an_other, List.length_cons]
    omega

theorem foldl_sum18 (l : List SpecClean) (c : Counts) :
    sum18 (l.foldl processSpecimen c) = sum18 c + l.countP classified := by
  induction l generalizing c with
  | nil => rfl
  | cons s t ih =>
    rw [List.foldl_cons, ih, List.countP_cons]
    by_cases hc : classified s
    · rw [process_sum18_classified c s hc]
      simp [hc]
      omega
    · rw [process_sum18_not c s (by simpa using hc)]
      simp [hc]

theorem foldl_males (l : List SpecClean) (c : Counts) :
    (l.foldl processSpecimen c).maleAnopheles + sumAnMales c
      = c.maleAnopheles + sumAnMales (l.foldl processSpecimen c) := by
  induction l generalizing c with
  | nil => rfl
  | cons s t ih =>
    have h1 := process_males c s
    have h2 := ih (processSpecimen c s)
    rw [List.foldl_cons]
    omega

/-- An all-default cleaned surveillance row for concrete examples. -/
def survCleanDefault : SurvClean :=
  ⟨none, none, "Unknown", none, none, none, none, "Unknown", "Unknown",
   "Unknown", "Unknown", "Unknown", 0, "OK"⟩

/-- An all-default cleaned specimen row for concrete examples. -/
def specCleanDefault : SpecClean :=
  ⟨none, "Unknown", "Unknown", "Unknown", "Unknown", "Unknown", "Unknown",
   none, "Unknown", false, false, "OK"⟩

/-- The PSC session of the end-to-end scenario: `SessionID=1`,
`SessionCollectionMethod="PSC"`. -/
def survPSC1 : SurvClean :=
  { survCleanDefault with SessionID := some 1, SessionCollectionMethod := "PSC" }

/-- Scenario specimen: session 1, `Anopheles gambiae`, `Female`, `Gravid`
(the method column is the denormalized copy of its parent session's). -/
def specGambiaeF1 : SpecClean :=
  { specCleanDefault with
    SessionID := some 1
    Species := "Anopheles gambiae"
    Sex := "Female"
    AbdomenStatus := "Gravid"
    SessionCollectionMethod := "PSC" }

/-- Scenario specimen: session 1, `Culex`, `Male`, `Unfed`. -/
def specCulexM1 : SpecClean :=
  { specCleanDefault with
    SessionID := some 1
    Species := "Culex"
    Sex := "Male"
    AbdomenStatus := "Unfed"
    SessionCollectionMethod := "PSC" }

/-- A specimen of session 1 matching none of the six report species
substrings. -/
def specUnknown1 : SpecClean :=
  { specCleanDefault with SessionID := some 1, Species := "Unknown" }

theorem sum18_init : sum18 initCounts = 0 := rfl

theorem report_row_shape (surv : List SurvClean) (specs : List SpecClean)
    (c : Counts) (hc : c ∈ export_report_counts surv specs) :
    ∃ sid, c = buildCounts (specs.filter (matchSid sid)) := by
  simp only [export_report_counts, List.mem_map] at hc
  obtain ⟨sid, _, hbuild⟩ := hc
  exact ⟨sid, hbuild.symm⟩

/-- C2 (amended): every report row satisfies
`total = totalAnopheles + totalOtherMosquitoes`; the eighteen-counter sum
never exceeds `total` and equals it as soon as every input specimen matches
one of the six species-group substrings (a specimen matching none — e.g.
species `"Unknown"` — increments `total` and `totalOtherMosquitoes` but no
species counter). -/
theorem report_totals_invariant (surv : List SurvClean) (specs : List SpecClean)
    (c : Counts) (hc : c ∈ export_report_counts surv specs) :
    c.total = c.totalAnopheles + c.totalOtherMosquitoes ∧
    sum18 c ≤ c.total ∧
    ((∀ s ∈ specs, classified s = true) → sum18 c = c.total) := by
  obtain ⟨sid, rfl⟩ := report_row_shape surv specs c hc
  set l := specs.filter (matchSid sid) with hl
  have h1 := foldl_total l initCounts
  have h2 := foldl_an_other l initCounts
  have h3 := foldl_sum18 l initCounts
  have hcount : l.countP classified ≤ l.length := List.countP_le_length classified
  have hz1 : initCounts.total = 0 := rfl
  have hz2 : initCounts.totalAnopheles = 0 := rfl
  have hz3 : initCounts.totalOtherMosquitoes = 0 := rfl
  have hz4 : sum18 initCounts = 0 := rfl
  simp only [buildCounts]
  refine ⟨by omega, by omega, ?_⟩
  intro hall
  have hcp : l.countP classified = l.length := by
    apply List.countP_eq_length.mpr
    intro s hs
    simpa using hall s (List.mem_of_mem_filter hs)
  omega

/-- C2 witness at a concrete input. -/
theorem report_totals_invariant_witness :
    (buildCounts ([specCulexM1].filter (matchSid (some 1)))).total
      = (buildCounts ([specCulexM1].filter (matchSid (some 1)))).totalAnopheles
        + (buildCounts ([specCulexM1].filter (matchSid (some 1)))).totalOtherMosquitoes ∧
    sum18 (buildCounts ([specCulexM1].filter (matchSid (some 1))))
      = (buildCounts ([specCulexM1].filter (matchSid (some 1)))).total := by
  have hmem : buildCounts ([specCulexM1].filter (matchSid (some 1)))
      ∈ export_report_counts [survPSC1] [specCulexM1] := by
    apply List.mem_map.mpr
    refine ⟨some 1, ?_, rfl⟩
    rw [List.mem_dedup]
    simp [survPSC1, survCleanDefault]
  have h := report_totals_invariant [survPSC1] [specCulexM1] _ hmem
  refine ⟨h.1, h.2.2 ?_⟩
  intro s hs
  rw [List.mem_singleton] at hs
  subst hs
  decide

/-- C2 counterexample: a specimen with species `"Unknown"` yields a report
row with `total = 1` but eighteen-counter sum `0`. -/
theorem report_counter_sum_counterexample :
    (buildCounts ([specUnknown1].filter (matchSid (some 1)))).total = 1 ∧
    sum18 (buildCounts ([specUnknown1].filter (matchSid (some 1)))) = 0 ∧
    buildCounts ([specUnknown1].filter (matchSid (some 1)))
      ∈ export_report_counts [survPSC1] [specUnknown1] := by
  refine ⟨?_, ?_, ?_⟩
  · have : ([specUnknown1].filter (matchSid (some 1))) = [specUnknown1] := by
      simp [matchSid, specUnknown1, specCleanDefault]
    rw [this]
    decide
  · have : ([specUnknown1].filter (matchSid (some 1))) = [specUnknown1] := by
      simp [matchSid, specUnknown1, specCleanDefault]
    rw [this]
    decide
  · apply List.mem_map.mpr
    refine ⟨some 1, ?_, rfl⟩
    rw [List.mem_dedup]
    simp [survPSC1, survCleanDefault]

/-- C10 (implicit invariant): in every report row the running
`maleAnopheles` total equals the sum of the three per-Anopheles-group male
counters. -/
theorem male_anopheles_sum_invariant (surv : List SurvClean)
    (specs : List SpecClean) (c : Counts)
    (hc : c ∈ export_report_counts surv specs) :
    c.maleAnopheles = c.AnGambiaeMale + c.AnFunestusMale + c.AnOtherMale := by
  obtain ⟨sid, rfl⟩ := report_row_shape surv specs c hc
  set l := specs.filter (matchSid sid) with hl
  have h := foldl_males l initCounts
  have hsum : sumAnMales (l.foldl processSpecimen initCounts)
      = (l.foldl processSpecimen initCounts).AnGambiaeMale
        + (l.foldl processSpecimen initCounts).AnFunestusMale
        + (l.foldl processSpecimen initCounts).AnOtherMale := rfl
  have hzero : sumAnMales initCounts = 0 := rfl
  have hzm : initCounts.maleAnopheles = 0 := rfl
  simp only [buildCounts]
  omega

/-- C10 witness at a concrete input. -/
theorem male_anopheles_sum_invariant_witness :
    (buildCounts ([specGambiaeF1].filter (matchSid (some 1)))).maleAnopheles
      = (buildCounts ([specGambiaeF1].filter (matchSid (some 1)))).AnGambiaeMale
        + (buildCounts ([specGambiaeF1].filter (matchSid (some 1)))).AnFunestusMale
        + (buildCounts ([specGambiaeF1].filter (matchSid (some 1)))).AnOtherMale := by
  apply male_anopheles_sum_invariant [survPSC1] [specGambiaeF1]
  apply List.mem_map.mpr
  refine ⟨some 1, ?_, rfl⟩
  rw [List.mem_dedup]
  simp [survPSC1, survCleanDefault]

/-! ### Metrics Engine (`metrics_calculator.py`)

The sub-calculators referenced by the claims are embedded; the purely
tabulating sub-bundles (summary, temporal, geographic breakdowns and the
`value_counts` dictionaries) carry no rate and are not modelled.  A pandas
`mean()` is `Option ℚ`-valued: `none` is the `NaN` it returns on an empty
(or all-`NaN`) column. -/

/-- Embeds `str.contains('PSC', case=False, na=False)` on a (non-null) method. -/
def containsPSC (m : String) : Bool := strContains (pyLower m) "psc"

/-- Embeds `str.contains('Anopheles', case=False, na=False)` on a species. -/
def isAnophelesStr (sp : String) : Bool := strContains (pyLower sp) "anopheles"

/-- The PSC-filtered surveillance table (line 274-276). -/
def pscSessions (surv : List SurvClean) : List SurvClean :=
  surv.filter (fun r => containsPSC r.SessionCollectionMethod)

/-- The PSC-filtered specimens table (line 287-289). -/
def pscSpecimens (specs : List SpecClean) : List SpecClean :=
  specs.filter (fun s => containsPSC s.SessionCollectionMethod)

/-- The Anopheles-filtered specimens (`Species.str.contains('Anopheles')`). -/
def anophelesOf (specs : List SpecClean) : List SpecClean :=
  specs.filter (fun s => isAnophelesStr s.Species)

/-- First-match association lookup on rational keys. -/
def lookupQ : List (ℚ × Nat) → ℚ → Option Nat
  | [], _ => none
  | p :: t, k => if p.1 = k then some p.2 else lookupQ t k

/-- Embeds `groupby('SessionID').size()`: one `(key, size)` entry per distinct
non-`NaN` session id (pandas groupby drops `NaN` keys). -/
def groupSizeBySession (specs : List SpecClean) : List (ℚ × Nat) :=
  ((specs.filterMap (·.SessionID)).dedup).map
    (fun k => (k, specs.countP (fun s => decide (s.SessionID = some k))))

/-- The left join of the per-session sizes onto one session row followed by
`fillna(0)`: a missing (or `NaN`) key becomes count `0`. -/
def joinedCount (tbl : List (ℚ × Nat)) : Option ℚ → Nat
  | none => 0
  | some k => (lookupQ tbl k).getD 0

/-- The fields of `calculate_indoor_resting_density`'s result referenced by
the claims (the by-district / by-month dictionaries are not modelled). -/
structure DensityMetrics where
  total_psc_collections : Nat
  avg_mosquitoes_per_house : ℚ
  avg_anopheles_per_house : ℚ

/-- Embeds `MetricsCalculator.calculate_indoor_resting_density` (lines 267-350):
filter sessions and specimens to PSC by case-insensitive substring, group
specimen counts by session, left-join onto the PSC sessions, `fillna(0)`,
and take the mean; same again restricted to Anopheles. -/
def calculate_indoor_resting_density (surv : List SurvClean)
    (specs : List SpecClean) : DensityMetrics :=
  let psc := pscSessions surv
  if psc.isEmpty then ⟨0, 0, 0⟩
  else
    let pspec := pscSpecimens specs
    let counts := groupSizeBySession pspec
    let merged := psc.map (fun r => joinedCount counts r.SessionID)
    let avg : ℚ := (merged.sum : ℚ) / merged.length
    let acounts := groupSizeBySession (anophelesOf pspec)
    let amerged := psc.map (fun r => joinedCount acounts r.SessionID)
    let aavg : ℚ := (amerged.sum : ℚ) / amerged.length
    ⟨psc.length, avg, aavg⟩

/-- Specimens of one session: what a session row receives from the join. -/
def sessionSpecimenCount (pspec : List SpecClean) : Option ℚ → Nat
  | none => 0
  | some k => pspec.countP (fun s => decide (s.SessionID = some k))

theorem lookupQ_mapped (keys : List ℚ) (f : ℚ → Nat) (k : ℚ) (hk : k ∈ keys) :
    lookupQ (keys.map (fun x => (x, f x))) k = some (f k) := by
  induction keys with
  | nil => simp at hk
  | cons a t ih =>
    simp only [List.map_cons, lookupQ]
    by_cases ha : a = k
    · subst ha
      rw [if_pos rfl]
    · rw [if_neg ha]
      apply ih
      rcases List.mem_cons.mp hk with h | h
      · exact absurd h.symm ha
      · exact h

theorem lookupQ_mapped_none (keys : List ℚ) (f : ℚ → Nat) (k : ℚ)
    (hk : k ∉ keys) :
    lookupQ (keys.map (fun x => (x, f x))) k = none := by
  induction keys with
  | nil => rfl
  | cons a t ih =>
    simp only [List.map_cons, lookupQ]
    have hak : ¬ a = k := by
      intro ha
      exact hk (by rw [← ha]; exact List.mem_cons_self a t)
    rw [if_neg hak]
    exact ih (fun h => hk (List.mem_cons_of_mem a h))

/-- The join reproduces the direct per-session count: sessions absent from
the grouped table (no matching specimen, or `NaN` id) get `0`. -/
theorem joinedCount_group (l : List SpecClean) (sid : Option ℚ) :
    joinedCount (groupSizeBySession l) sid = sessionSpecimenCount l sid := by
  cases sid with
  | none => rfl
  | some k =>
    simp only [joinedCount, sessionSpecimenCount, groupSizeBySession]
    by_cases hk : k ∈ (l.filterMap (·.SessionID)).dedup
    · rw [lookupQ_mapped _ _ _ hk]
      rfl
    · rw [lookupQ_mapped_none _ _ _ hk]
      have hz : l.countP (fun s => decide (s.SessionID = some k)) = 0 := by
        apply List.countP_eq_zero.mpr
        intro s hs hsk
        apply hk
        rw [List.mem_dedup]
        apply List.mem_filterMap.mpr
        exact ⟨s, hs, by simpa using hsk⟩
      simp [hz]

/-- When PSC sessions exist, both density averages are the plain mean of the
per-PSC-session specimen counts — a session with no matching specimen
contributes `0` to the numerator while still counting in the denominator. -/
theorem density_formula (surv : List SurvClean) (specs : List SpecClean)
    (h : pscSessions surv ≠ []) :
    (calculate_indoor_resting_density surv specs).total_psc_collections
      = (pscSessions surv).length ∧
    (calculate_indoor_resting_density surv specs).avg_mosquitoes_per_house
      = (((pscSessions surv).map
          (fun r => sessionSpecimenCount (pscSpecimens specs) r.SessionID)).sum : ℚ)
        / (pscSessions surv).length ∧
    (calculate_indoor_resting_density surv specs).avg_anopheles_per_house
      = (((pscSessions surv).map
          (fun r => sessionSpecimenCount (anophelesOf (pscSpecimens specs)) r.SessionID)).sum : ℚ)
        / (pscSessions surv).length := by
  have hne : ¬(pscSessions surv).isEmpty := by
    simpa [List.isEmpty_iff] using h
  simp only [calculate_indoor_resting_density]
  rw [if_neg hne]
  simp only [joinedCount_group, List.length_map]
  exact ⟨trivial, trivial, trivial⟩

/-- C8: `calculate_indoor_resting_density` restricts to sessions whose
method contains `"PSC"` case-insensitively and returns the mean
specimens-per-session over all such sessions (each zero-specimen PSC
session contributing `0`, not excluded), and the same for Anopheles. -/
theorem indoor_density_mean_includes_zero_sessions (surv : List SurvClean)
    (specs : List SpecClean) (h : pscSessions surv ≠ []) :
    (calculate_indoor_resting_density surv specs).total_psc_collections
      = (pscSessions surv).length ∧
    (calculate_indoor_resting_density surv specs).avg_mosquitoes_per_house
      = (((pscSessions surv).map
          (fun r => sessionSpecimenCount (pscSpecimens specs) r.SessionID)).sum : ℚ)
        / (pscSessions surv).length ∧
    (calculate_indoor_resting_density surv specs).avg_anopheles_per_house
      = (((pscSessions surv).map
          (fun r => sessionSpecimenCount (anophelesOf (pscSpecimens specs)) r.SessionID)).sum : ℚ)
        / (pscSessions surv).length :=
  density_formula surv specs h

/-- C8 witness: a PSC session with no specimen at all still enters the mean
with value `0`. -/
theorem indoor_density_mean_witness :
    (calculate_indoor_resting_density [survPSC1] []).total_psc_collections = 1 ∧
    (calculate_indoor_resting_density [survPSC1] []).avg_mosquitoes_per_house = 0 ∧
    (calculate_indoor_resting_density [survPSC1] []).avg_anopheles_per_house = 0 := by
  have hpsc : pscSessions [survPSC1] = [survPSC1] := rfl
  have h := indoor_density_mean_includes_zero_sessions [survPSC1] []
    (by rw [hpsc]; simp)
  obtain ⟨h1, h2, h3⟩ := h
  refine ⟨by rw [h1, hpsc]; rfl, ?_, ?_⟩
  · rw [h2, hpsc]
    norm_num [sessionSpecimenCount, pscSpecimens, survPSC1, survCleanDefault]
  · rw [h3, hpsc]
    norm_num [sessionSpecimenCount, pscSpecimens, anophelesOf, survPSC1, survCleanDefault]

/-- Pandas `Series.mean()` on a non-null numeric column: `NaN` (here
`none`) when the column is empty. -/
def meanQ (xs : List ℚ) : Option ℚ :=
  if xs.isEmpty then none else some (xs.sum / xs.length)

/-- Pandas `Series.mean()` on a nullable column (`skipna` default):
`NaN` values are dropped; all-`NaN` or empty yields `NaN`. -/
def meanOpt (xs : List (Option ℚ)) : Option ℚ := meanQ (xs.filterMap id)

/-- The numeric fields of `calculate_intervention_metrics` (lines 176-219);
the `llin_types` / `llin_brands` `value_counts` dictionaries are not
modelled. -/
structure InterventionMetrics where
  irs_rate_percent : ℚ
  total_llins : ℚ
  avg_llins_per_house : Option ℚ
  houses_with_llins : Nat
  avg_llin_usage_rate : Option ℚ

/-- Embeds `MetricsCalculator.calculate_intervention_metrics`: the IRS rate is
`len`-guarded, but both averages are bare pandas means. -/
def calculate_intervention_metrics (surv : List SurvClean) : InterventionMetrics :=
  { irs_rate_percent :=
      if surv.length > 0 then
        ((surv.countP (fun r => decide (r.WasIrsConducted = "Yes")) : ℚ)
          / surv.length) * 100
      else 0
    total_llins := (surv.filterMap (·.NumLlinsAvailable)).sum
    avg_llins_per_house := meanOpt (surv.map (·.NumLlinsAvailable))
    houses_with_llins := surv.countP (fun r => optGt r.NumLlinsAvailable (some 0))
    avg_llin_usage_rate := meanQ (surv.map (·.LlinUsageRate)) }

/-- The rate fields of `calculate_blood_feeding_metrics` (lines 221-265). -/
structure BloodFeedingMetrics where
  overall_feeding_rate : ℚ
  anopheles_feeding_rate : ℚ

/-- Embeds `MetricsCalculator.calculate_blood_feeding_metrics`: both rates carry an
explicit empty-denominator guard returning `0`. -/
def calculate_blood_feeding_metrics (specs : List SpecClean) : BloodFeedingMetrics :=
  let an := anophelesOf specs
  { overall_feeding_rate :=
      if specs.length > 0 then
        ((specs.countP (fun s => s.IsFed) : ℚ) / specs.length) * 100
      else 0
    anopheles_feeding_rate :=
      if an.length > 0 then
        ((an.countP (fun s => s.IsFed) : ℚ) / an.length) * 100
      else 0 }

/-- The rate fields of `calculate_species_metrics` (lines 99-135). -/
structure SpeciesMetrics where
  total_anopheles : Nat
  anopheles_percentage : ℚ

/-- Embeds `MetricsCalculator.calculate_species_metrics`: the Anopheles share is
guarded on an empty specimens table. -/
def calculate_species_metrics (specs : List SpecClean) : SpeciesMetrics :=
  let an := anophelesOf specs
  { total_anopheles := an.length
    anopheles_percentage :=
      if specs.length > 0 then ((an.length : ℚ) / specs.length) * 100 else 0 }

/-- Embeds `specimens_per_collection` of `calculate_collection_method_metrics`
(lines 153-159): one ratio per distinct method, the guard omitting the
category rather than emitting a value (vacuous for methods drawn from the
table itself, so no division by zero can occur). -/
def specimens_per_collection (surv : List SurvClean) (specs : List SpecClean) :
    List (String × ℚ) :=
  ((surv.map (·.SessionCollectionMethod)).dedup).filterMap (fun m =>
    let ncoll := surv.countP (fun r => decide (r.SessionCollectionMethod = m))
    if ncoll > 0 then
      some (m, (specs.countP (fun s => decide (s.SessionCollectionMethod = m)) : ℚ)
        / ncoll)
    else none)

/-- The claim-relevant part of the `calculate_all_metrics` bundle. -/
structure MetricsBundle where
  species : SpeciesMetrics
  interventions : InterventionMetrics
  blood_feeding : BloodFeedingMetrics
  indoor_density : DensityMetrics
  specimens_per_collection : List (String × ℚ)

/-- Embeds `MetricsCalculator.calculate_all_metrics` (lines 32-54), restricted to
the sub-calculators the claims reference. -/
def calculate_all_metrics (surv : List SurvClean) (specs : List SpecClean) :
    MetricsBundle :=
  { species := calculate_species_metrics specs
    interventions := calculate_intervention_metrics surv
    blood_feeding := calculate_blood_feeding_metrics specs
    indoor_density := calculate_indoor_resting_density surv specs
    specimens_per_collection := specimens_per_collection surv specs }

/-- C4 counterexample: on an empty surveillance table the LLIN usage-rate
average and the per-house LLIN average are the bare pandas mean, i.e. the
`NaN` marker `none` — not `0` as the claim requires. -/
theorem llin_rate_nan_counterexample :
    (calculate_all_metrics [] []).interventions.avg_llin_usage_rate = none ∧
    (calculate_all_metrics [] []).interventions.avg_llins_per_house = none ∧
    (none : Option ℚ) ≠ some 0 := by
  refine ⟨rfl, rfl, by simp⟩

/-- C4 (amended): the explicitly guarded rates (IRS rate, feeding rates,
Anopheles percentage, indoor density) return `0` on an empty denominator
and `specimens_per_collection` omits the category, but the two unguarded
LLIN means are `NaN` (`none`), not `0`, on an empty surveillance table. -/
theorem metrics_rate_guards (surv : List SurvClean) (specs : List SpecClean) :
    (surv = [] →
      (calculate_all_metrics surv specs).interventions.irs_rate_percent = 0 ∧
      (calculate_all_metrics surv specs).interventions.avg_llin_usage_rate = none ∧
      (calculate_all_metrics surv specs).interventions.avg_llins_per_house = none ∧
      (calculate_all_metrics surv specs).specimens_per_collection = []) ∧
    (specs = [] →
      (calculate_all_metrics surv specs).blood_feeding.overall_feeding_rate = 0 ∧
      (calculate_all_metrics surv specs).species.anopheles_percentage = 0) ∧
    (anophelesOf specs = [] →
      (calculate_all_metrics surv specs).blood_feeding.anopheles_feeding_rate = 0) ∧
    (pscSessions surv = [] →
      (calculate_all_metrics surv specs).indoor_density = ⟨0, 0, 0⟩) := by
  refine ⟨?_, ?_, ?_, ?_⟩ <;> intro h
  · subst h
    exact ⟨rfl, rfl, rfl, rfl⟩
  · subst h
    exact ⟨rfl, rfl⟩
  · simp only [calculate_all_metrics, calculate_blood_feeding_metrics]
    rw [h]
    rfl
  · simp only [calculate_all_metrics, calculate_indoor_resting_density]
    rw [h]
    rfl

/-- C4 witness at the empty tables. -/
theorem metrics_rate_guards_witness :
    (calculate_all_metrics [] []).interventions.irs_rate_percent = 0 ∧
    (calculate_all_metrics [] []).interventions.avg_llin_usage_rate = none ∧
    (calculate_all_metrics [] []).specimens_per_collection = [] ∧
    (calculate_all_metrics [] []).blood_feeding.overall_feeding_rate = 0 ∧
    (calculate_all_metrics [] []).blood_feeding.anopheles_feeding_rate = 0 ∧
    (calculate_all_metrics [] []).indoor_density = ⟨0, 0, 0⟩ := by
  have h := metrics_rate_guards [] []
  exact ⟨(h.1 rfl).1, (h.1 rfl).2.1, (h.1 rfl).2.2.2, (h.2.1 rfl).1,
    h.2.2.1 rfl, h.2.2.2 rfl⟩

/-- A specimen whose session id occurs in no surveillance row. -/
def specOrphan2 : SpecClean := { specCleanDefault with SessionID := some 2 }

/-- C5 witness: one session (id 1), one orphan specimen (id 2): one merged
row, with null session columns. -/
theorem merge_left_join_guarantee_witness :
    (merge_data [survPSC1] [specOrphan2]).length = 1 ∧
    merge_data [survPSC1] [specOrphan2] = [(specOrphan2, none)] := by
  have h := merge_left_join_guarantee [survPSC1] [specOrphan2] (by simp)
  constructor
  · simpa using h.1
  · have hb : sidEq survPSC1.SessionID specOrphan2.SessionID = false := by
      norm_num [sidEq, survPSC1, survCleanDefault, specOrphan2, specCleanDefault]
    simp [merge_data, hb]

/-- C1 (scenario of §8.7): all claimed counters match the code except
`AnGambiaeFemale`: the sex test checks the substring `male` before
`female`, and `"female"` contains `"male"`, so the female gambiae specimen
is counted as male (`AnGambiaeMale = 1`, `maleAnopheles = 1`,
`AnGambiaeFemale = 0`); both density averages match the claim. -/
theorem report_scenario_code_divergence :
    buildCounts [specGambiaeF1, specCulexM1]
      ∈ export_report_counts [survPSC1] [specGambiaeF1, specCulexM1] ∧
    (buildCounts [specGambiaeF1, specCulexM1]).total = 2 ∧
    (buildCounts [specGambiaeF1, specCulexM1]).totalAnopheles = 1 ∧
    (buildCounts [specGambiaeF1, specCulexM1]).totalOtherMosquitoes = 1 ∧
    (buildCounts [specGambiaeF1, specCulexM1]).anGambiaeG = 1 ∧
    (buildCounts [specGambiaeF1, specCulexM1]).CulexUF = 1 ∧
    (buildCounts [specGambiaeF1, specCulexM1]).culexMale = 1 ∧
    (buildCounts [specGambiaeF1, specCulexM1]).AnGambiaeFemale = 0 ∧
    (buildCounts [specGambiaeF1, specCulexM1]).AnGambiaeMale = 1 ∧
    (buildCounts [specGambiaeF1, specCulexM1]).maleAnopheles = 1 ∧
    (calculate_indoor_resting_density [survPSC1]
      [specGambiaeF1, specCulexM1]).avg_mosquitoes_per_house = 2 ∧
    (calculate_indoor_resting_density [survPSC1]
      [specGambiaeF1, specCulexM1]).avg_anopheles_per_house = 1 := by
  have hpsc : pscSessions [survPSC1] = [survPSC1] := rfl
  have hps : pscSpecimens [specGambiaeF1, specCulexM1]
      = [specGambiaeF1, specCulexM1] := rfl
  have han : anophelesOf (pscSpecimens [specGambiaeF1, specCulexM1])
      = [specGambiaeF1] := rfl
  obtain ⟨_, h2, h3⟩ := density_formula [survPSC1] [specGambiaeF1, specCulexM1]
    (by rw [hpsc]; simp)
  refine ⟨?_, by decide, by decide, by decide, by decide, by decide, by decide,
    by decide, by decide, by decide, ?_, ?_⟩
  · apply List.mem_map.mpr
    refine ⟨some 1, ?_, ?_⟩
    · rw [List.mem_dedup]
      simp [survPSC1, survCleanDefault]
    · have hfil : ([specGambiaeF1, specCulexM1].filter (matchSid (some 1)))
          = [specGambiaeF1, specCulexM1] := by
        simp [matchSid, specGambiaeF1, specCulexM1, specCleanDefault]
      rw [hfil]
  · rw [h2, hpsc, hps]
    have hc : sessionSpecimenCount [specGambiaeF1, specCulexM1]
        survPSC1.SessionID = 2 := rfl
    simp only [List.map_cons, List.map_nil, hc, List.sum_cons, List.sum_nil,
      List.length_cons, List.length_nil]
    norm_num
  · rw [h3, hpsc, han]
    have hc : sessionSpecimenCount [specGambiaeF1] survPSC1.SessionID = 1 := rfl
    simp only [List.map_cons, List.map_nil, hc, List.sum_cons, List.sum_nil,
      List.length_cons, List.length_nil]
    norm_num

end VectorPipeline
